import Mathlib

/-!
Verification of the shared terrain and combat simulation core of the voxel
FPS repository: the Perlin noise generator and terrain classifier
(utils.js / world.js and their copies in server.js), the two terrain height
functions (player.js scan and server.js closed form), projectile physics
(ServerBullet.update), damage (ServerPlayer.takeDamage, Enemy.takeDamage)
and the ammunition logic (WeaponSystem and the server reload handler).

Modelling conventions:
* JavaScript numbers are modelled by exact arithmetic: rationals for
  continuous quantities (noise values, positions, velocities), integers for
  whole-number quantities.  Math.floor is Int.floor.
* On nonnegative integers the JS expression Math.floor((rng / 233280) * n)
  equals rng * n / 233280 in natural division; for possibly negative rng it
  is floor division Int.fdiv, and the JS remainder operator is Int.tmod.
* The call Math.random() < 0.01 inside VoxelWorld.getBlockType is modelled
  by a Boolean oracle indexed by the queried coordinates, giving the outcome
  of the draw at that query.
* The comparison Math.sqrt d < 1.0 on a squared distance d is modelled as
  d < 1.
* JS arrays are modelled as functions from index to value; for the shuffle
  at arbitrary integer seeds (where the source can access negative indices)
  the model is a map from integer keys to optional values, reading absent
  keys as undefined.
-/

namespace VoxelFPS

/-! ## Configuration constants (config.js / server.js CONFIG) -/

/-- CONFIG.WORLD_HEIGHT. -/
def WORLD_HEIGHT : ℤ := 64

/-- CONFIG.AMMO_CAPACITY. -/
def AMMO_CAPACITY : ℤ := 30

/-- CONFIG.BULLET_GRAVITY (server.js). -/
def BULLET_GRAVITY : ℚ := -15

/-- CONFIG.BULLET_BOUNCE_DAMPENING = 0.4 (server.js). -/
def BULLET_BOUNCE_DAMPENING : ℚ := 2/5

/-- CONFIG.BULLET_MAX_BOUNCES (server.js). -/
def BULLET_MAX_BOUNCES : ℕ := 3

/-! ## PerlinNoise (utils.js, duplicated in server.js) -/

/-- One step of the linear congruential generator in
PerlinNoise.generatePermutation: rng = (rng * 9301 + 49297) % 233280. -/
def lcgNext (rng : ℕ) : ℕ := (rng * 9301 + 49297) % 233280

/-- The JS destructuring swap of p[i] and p[j] on an array modelled as a
function from index to value. -/
def swapFun (p : ℕ → ℕ) (i j : ℕ) : ℕ → ℕ :=
  fun k => if k = i then p j else if k = j then p i else p k

/-- The shuffle loop of PerlinNoise.generatePermutation; the argument n is
the current loop index i, and the loop runs for i = 255, 254, ..., 1.
At each step j = Math.floor((rng / 233280) * (i + 1)), which on naturals is
rng * (i + 1) / 233280. -/
def shuffleFrom (p : ℕ → ℕ) (rng : ℕ) : ℕ → (ℕ → ℕ)
  | 0 => p
  | n + 1 =>
    let rng2 := lcgNext rng
    let j := rng2 * (n + 2) / 233280
    shuffleFrom (swapFun p (n + 1) j) rng2 n

/-- PerlinNoise.generatePermutation (utils.js / server.js): start from the
identity array p[i] = i on 0..255, shuffle with the seeded LCG, and return
p.concat(p) as a 512-entry list. -/
def generatePermutation (seed : ℕ) : List ℕ :=
  let p := (List.range 256).map (shuffleFrom id seed 255)
  p ++ p

/-- PerlinNoise.fade: t * t * t * (t * (t * 6 - 15) + 10). -/
def fade (t : ℚ) : ℚ := t * t * t * (t * (t * 6 - 15) + 10)

/-- PerlinNoise.lerp: a + t * (b - a). -/
def lerp (t a b : ℚ) : ℚ := a + t * (b - a)

/-- PerlinNoise.grad: gradient dot product selected by the low 4 bits of the
hash.  On naturals, hash AND 15 is hash % 16, (h AND 1) = 0 is h % 2 = 0 and
(h AND 2) = 0 is h / 2 % 2 = 0. -/
def grad (hash : ℕ) (x y z : ℚ) : ℚ :=
  let h := hash % 16
  let u := if h < 8 then x else y
  let v := if h < 4 then y else if h = 12 ∨ h = 14 then x else z
  (if h % 2 = 0 then u else -u) + (if h / 2 % 2 = 0 then v else -v)

/-- The cell coordinate Math.floor(x) AND 255 of PerlinNoise.noise; on the
int32 range of this program the bit mask equals the nonnegative remainder
modulo 256. -/
def cell (x : ℚ) : ℕ := (⌊x⌋ % 256).toNat

/-- The table lookup this.permutation[k] on the 512-entry table. -/
def permAt (perm : List ℕ) (k : ℕ) : ℕ := perm.getD k 0

/-- PerlinNoise.noise (3D improved Perlin noise), translated from utils.js /
server.js with the permutation table passed explicitly in place of the
instance field this.permutation. -/
def noise (perm : List ℕ) (x y z : ℚ) : ℚ :=
  let X := cell x
  let Y := cell y
  let Z := cell z
  let xf := x - (⌊x⌋ : ℚ)
  let yf := y - (⌊y⌋ : ℚ)
  let zf := z - (⌊z⌋ : ℚ)
  let u := fade xf
  let v := fade yf
  let w := fade zf
  let A := permAt perm X + Y
  let AA := permAt perm A + Z
  let AB := permAt perm (A + 1) + Z
  let B := permAt perm (X + 1) + Y
  let BA := permAt perm B + Z
  let BB := permAt perm (B + 1) + Z
  lerp w
    (lerp v
      (lerp u (grad (permAt perm AA) xf yf zf)
              (grad (permAt perm BA) (xf - 1) yf zf))
      (lerp u (grad (permAt perm AB) xf (yf - 1) zf)
              (grad (permAt perm BB) (xf - 1) (yf - 1) zf)))
    (lerp v
      (lerp u (grad (permAt perm (AA + 1)) xf yf (zf - 1))
              (grad (permAt perm (BA + 1)) (xf - 1) yf (zf - 1)))
      (lerp u (grad (permAt perm (AB + 1)) xf (yf - 1) (zf - 1))
              (grad (permAt perm (BB + 1)) (xf - 1) (yf - 1) (zf - 1))))

/-- The loop of PerlinNoise.octaveNoise, accumulating value and maxValue
while amplitude and frequency evolve. -/
def octaveNoiseGo (perm : List ℕ) (x y persistence : ℚ) :
    ℕ → ℚ → ℚ → ℚ → ℚ → ℚ × ℚ
  | 0, value, _, _, maxValue => (value, maxValue)
  | n + 1, value, amplitude, frequency, maxValue =>
    octaveNoiseGo perm x y persistence n
      (value + noise perm (x * frequency) (y * frequency) 0 * amplitude)
      (amplitude * persistence) (frequency * 2) (maxValue + amplitude)

/-- PerlinNoise.octaveNoise: octaves layers of noise summed at doubling
frequency and geometrically decaying amplitude, normalized by the amplitude
sum. -/
def octaveNoise (perm : List ℕ) (x y : ℚ) (octaves : ℕ)
    (persistence scale : ℚ) : ℚ :=
  let vm := octaveNoiseGo perm x y persistence octaves 0 1 scale 0
  vm.1 / vm.2

/-- The permutation table of the running game: both the client world.js and
server.js construct new PerlinNoise(42). -/
def worldPerm : List ℕ := generatePermutation 42

/-- The concrete value of worldPerm, established once by kernel computation
in worldPerm_eq so that later concrete evaluations only index a literal. -/
def worldPermTable : List ℕ :=
  [94, 47, 147, 182, 164, 63, 42, 216, 128, 160, 151, 100, 238, 95, 255, 1, 40, 114, 87, 187, 51,
   229, 5, 30, 235, 184, 133, 246, 178, 129, 0, 57, 36, 113, 205, 82, 153, 52, 93, 158, 4, 10,
   189, 118, 69, 90, 58, 116, 143, 19, 175, 239, 55, 65, 202, 206, 186, 224, 110, 232, 193, 185,
   213, 177, 165, 12, 72, 146, 234, 220, 97, 22, 53, 221, 209, 62, 80, 195, 34, 26, 46, 196, 119,
   18, 49, 107, 127, 23, 134, 227, 145, 233, 188, 75, 20, 214, 144, 181, 210, 44, 29, 142, 225,
   179, 199, 126, 217, 200, 168, 28, 66, 244, 84, 245, 14, 152, 198, 231, 138, 2, 135, 104, 130,
   132, 162, 8, 91, 172, 159, 67, 25, 157, 45, 154, 60, 105, 219, 109, 54, 150, 102, 112, 16, 117,
   79, 136, 96, 37, 83, 123, 169, 207, 139, 124, 183, 76, 171, 254, 163, 21, 121, 218, 170, 24,
   242, 149, 140, 204, 176, 71, 48, 131, 81, 17, 33, 101, 88, 70, 56, 11, 228, 50, 68, 85, 7, 3,
   92, 35, 108, 191, 59, 120, 89, 212, 249, 236, 156, 111, 223, 241, 122, 190, 31, 99, 77, 253,
   161, 86, 248, 15, 137, 64, 201, 251, 222, 211, 6, 61, 167, 74, 41, 252, 39, 106, 203, 27, 166,
   98, 173, 125, 9, 237, 115, 73, 103, 38, 197, 155, 32, 43, 215, 240, 230, 250, 78, 247, 192,
   174, 13, 148, 180, 141, 194, 243, 208, 226, 94, 47, 147, 182, 164, 63, 42, 216, 128, 160, 151,
   100, 238, 95, 255, 1, 40, 114, 87, 187, 51, 229, 5, 30, 235, 184, 133, 246, 178, 129, 0, 57,
   36, 113, 205, 82, 153, 52, 93, 158, 4, 10, 189, 118, 69, 90, 58, 116, 143, 19, 175, 239, 55,
   65, 202, 206, 186, 224, 110, 232, 193, 185, 213, 177, 165, 12, 72, 146, 234, 220, 97, 22, 53,
   221, 209, 62, 80, 195, 34, 26, 46, 196, 119, 18, 49, 107, 127, 23, 134, 227, 145, 233, 188, 75,
   20, 214, 144, 181, 210, 44, 29, 142, 225, 179, 199, 126, 217, 200, 168, 28, 66, 244, 84, 245,
   14, 152, 198, 231, 138, 2, 135, 104, 130, 132, 162, 8, 91, 172, 159, 67, 25, 157, 45, 154, 60,
   105, 219, 109, 54, 150, 102, 112, 16, 117, 79, 136, 96, 37, 83, 123, 169, 207, 139, 124, 183,
   76, 171, 254, 163, 21, 121, 218, 170, 24, 242, 149, 140, 204, 176, 71, 48, 131, 81, 17, 33,
   101, 88, 70, 56, 11, 228, 50, 68, 85, 7, 3, 92, 35, 108, 191, 59, 120, 89, 212, 249, 236, 156,
   111, 223, 241, 122, 190, 31, 99, 77, 253, 161, 86, 248, 15, 137, 64, 201, 251, 222, 211, 6, 61,
   167, 74, 41, 252, 39, 106, 203, 27, 166, 98, 173, 125, 9, 237, 115, 73, 103, 38, 197, 155, 32,
   43, 215, 240, 230, 250, 78, 247, 192, 174, 13, 148, 180, 141, 194, 243, 208, 226]

/-! ## TerrainSampler: VoxelWorld.getBlockType (world.js) -/

/-- BLOCK_TYPES (config.js / server.js). -/
inductive BlockType where
  | AIR
  | GRASS
  | DIRT
  | STONE
  | WATER
  | SAND
  | SNOW
  | TREE
  | GLASS
  deriving DecidableEq

/-- The expression Math.floor(20 + heightNoise * 20) computed by
VoxelWorld.getBlockType and by both getTerrainHeight variants, with
heightNoise = octaveNoise(x, z, 4, 0.5, 0.01). -/
def baseHeight (perm : List ℕ) (x z : ℚ) : ℤ :=
  ⌊20 + octaveNoise perm x z 4 (1/2) (1/100) * 20⌋

/-- Outcome oracle for the Math.random() < 0.01 draw inside
VoxelWorld.getBlockType, indexed by the queried coordinates. -/
def TreeOracle : Type := ℤ → ℤ → ℤ → Bool

/-- Oracle of a run in which no tree decoration is placed. -/
def noTree : TreeOracle := fun _ _ _ => false

/-- VoxelWorld.getBlockType (world.js).  The fuel argument bounds the single
recursive call in the tree branch: the recursion is entered only when
y = baseHeight + 1, and the inner call at y - 1 = baseHeight returns inside
the y <= baseHeight branch, so fuel 2 covers every query. -/
def getBlockTypeGo (perm : List ℕ) (r : TreeOracle) :
    ℕ → ℤ → ℤ → ℤ → BlockType
  | 0, _, _, _ => BlockType.AIR
  | fuel + 1, x, y, z =>
    if y > baseHeight perm (x : ℚ) (z : ℚ) + 10 then BlockType.AIR
    else if y ≤ 15 ∧ y > baseHeight perm (x : ℚ) (z : ℚ) then BlockType.WATER
    else if y ≤ 5 then BlockType.STONE
    else if y ≤ baseHeight perm (x : ℚ) (z : ℚ) then
      if octaveNoise perm (x : ℚ) (z : ℚ) 2 (2/5) (3/200) > 3/10 ∧
         octaveNoise perm (x : ℚ) (z : ℚ) 3 (3/5) (1/50) < -(1/5) ∧
         y = baseHeight perm (x : ℚ) (z : ℚ) then BlockType.SAND
      else if octaveNoise perm (x : ℚ) (z : ℚ) 2 (2/5) (3/200) < -(3/10) ∧
         y = baseHeight perm (x : ℚ) (z : ℚ) then BlockType.SNOW
      else if y = baseHeight perm (x : ℚ) (z : ℚ) then BlockType.GRASS
      else if y > baseHeight perm (x : ℚ) (z : ℚ) - 3 then BlockType.DIRT
      else BlockType.STONE
    else if y = baseHeight perm (x : ℚ) (z : ℚ) + 1 ∧
            getBlockTypeGo perm r fuel x (y - 1) z = BlockType.GRASS ∧
            r x y z = true ∧
            octaveNoise perm (x : ℚ) (z : ℚ) 2 (2/5) (3/200) > -(1/5) then BlockType.TREE
    else BlockType.AIR

/-- VoxelWorld.getBlockType at the fuel bound sufficient for every query. -/
def getBlockType (perm : List ℕ) (r : TreeOracle) (x y z : ℤ) : BlockType :=
  getBlockTypeGo perm r 2 x y z

/-! ## The two getTerrainHeight variants -/

/-- The scan loop of the client getTerrainHeight (player.js): from y = n
downward, return y + 1 at the first block that getBlockType does not report
as AIR, and 0 if none is found. -/
def scanHeight (perm : List ℕ) (r : TreeOracle) (x z : ℤ) : ℕ → ℤ
  | 0 => if getBlockType perm r x 0 z ≠ BlockType.AIR then 1 else 0
  | n + 1 =>
    if getBlockType perm r x ((n + 1 : ℕ) : ℤ) z ≠ BlockType.AIR then ((n + 1 : ℕ) : ℤ) + 1
    else scanHeight perm r x z n

/-- Client getTerrainHeight (player.js): scan downward from
WORLD_HEIGHT - 1 = 63. -/
def clientGetTerrainHeight (perm : List ℕ) (r : TreeOracle) (x z : ℤ) : ℤ :=
  scanHeight perm r x z 63

/-- Server getTerrainHeight (server.js): the closed form
Math.floor(20 + heightNoise * 20) + 1. -/
def getTerrainHeight (perm : List ℕ) (x z : ℚ) : ℤ :=
  baseHeight perm x z + 1

/-! ## generatePermutation under full JS semantics (arbitrary integer seed)

For a negative seed the JS shuffle computes negative rng values (the JS
remainder keeps the sign of the dividend) and hence negative indices j, and
reads and writes properties outside the array range 0..255.  The array is
modelled as a map from integer keys to optional values; keys never written
read as undefined (none). -/

/-- The JS remainder (sign of the dividend). -/
def jsMod (a b : ℤ) : ℤ := Int.tmod a b

/-- rng = (rng * 9301 + 49297) % 233280 under JS remainder semantics. -/
def jsLcgNext (rng : ℤ) : ℤ := jsMod (rng * 9301 + 49297) 233280

/-- The initial array p[i] = i for i in 0..255; other keys are undefined. -/
def jsArrayInit : ℤ → Option ℕ :=
  fun k => if 0 ≤ k ∧ k < 256 then some k.toNat else none

/-- The destructuring swap [p[i], p[j]] = [p[j], p[i]]: the write to p[j]
happens last, so for i = j the original p[i] survives. -/
def jsSwap (p : ℤ → Option ℕ) (i j : ℤ) : ℤ → Option ℕ :=
  fun k => if k = j then p i else if k = i then p j else p k

/-- Math.floor((rng / 233280) * count) in exact arithmetic, valid for
negative rng: floor division of rng * count by 233280. -/
def jsIndex (rng count : ℤ) : ℤ := Int.fdiv (rng * count) 233280

/-- The shuffle loop under JS semantics; the argument n is the current loop
index i, running 255 down to 1. -/
def jsShuffleFrom (p : ℤ → Option ℕ) (rng : ℤ) : ℕ → (ℤ → Option ℕ)
  | 0 => p
  | n + 1 =>
    let rng2 := jsLcgNext rng
    let j := jsIndex rng2 ((n : ℤ) + 2)
    jsShuffleFrom (jsSwap p ((n : ℤ) + 1) j) rng2 n

/-- generatePermutation under JS semantics at an arbitrary integer seed:
p.concat(p) copies the entries at keys 0..255 twice, holes included. -/
def generatePermutationJS (seed : ℤ) : List (Option ℕ) :=
  let p := (List.range 256).map (fun k => jsShuffleFrom jsArrayInit seed 255 (k : ℤ))
  p ++ p

/-- The property claimed of the table at a given integer seed: it is the
concatenation of two identical copies of a permutation of 0..255. -/
def permTableClaim (seed : ℤ) : Prop :=
  ∃ l : List ℕ, l.Perm (List.range 256) ∧
    generatePermutationJS seed = l.map some ++ l.map some

/-! ## Combat entities (server.js) -/

/-- A position or velocity vector. -/
structure Vec3 where
  x : ℚ
  y : ℚ
  z : ℚ
  deriving DecidableEq

/-- The combat-relevant state of a ServerPlayer (server.js). -/
structure SPlayer where
  id : ℕ
  position : Vec3
  health : ℚ
  isAlive : Bool
  deriving DecidableEq

/-- ServerPlayer.takeDamage: subtract the damage, clamp health at 0 and
clear isAlive when the result is ≤ 0, and return !this.isAlive. -/
def playerTakeDamage (p : SPlayer) (damage : ℚ) : SPlayer × Bool :=
  let h := p.health - damage
  if h ≤ 0 then ({ p with health := 0, isAlive := false }, true)
  else ({ p with health := h }, !p.isAlive)

/-- Enemy.takeDamage (enemy.js), reduced to its health arithmetic: subtract
without clamping; the call reports death (and destroys the enemy) exactly
when the resulting health is ≤ 0. -/
def enemyTakeDamage (health damageAmount : ℚ) : ℚ × Bool :=
  let h := health - damageAmount
  (h, decide (h ≤ 0))

/-- The combat-relevant state of a ServerBullet (server.js). -/
structure SBullet where
  position : Vec3
  velocity : Vec3
  damage : ℚ
  ownerId : ℕ
  life : ℚ
  bounceCount : ℕ
  isActive : Bool
  deriving DecidableEq

/-- Squared Euclidean distance; the source compares Math.sqrt of this
against 1.0, which is equivalent to comparing the square against 1. -/
def distSq (a b : Vec3) : ℚ :=
  (a.x - b.x) ^ 2 + (a.y - b.y) ^ 2 + (a.z - b.z) ^ 2

/-- The player-collision loop of ServerBullet.update: skip the owner and
dead players, damage the first player within distance 1 and stop; none means
no hit.  The players are the entries of gameState.players in iteration
order. -/
def bulletHitScan (b : SBullet) : List SPlayer → Option (List SPlayer)
  | [] => none
  | p :: ps =>
    if p.id = b.ownerId ∨ p.isAlive = false then
      (bulletHitScan b ps).map (fun qs => p :: qs)
    else if distSq b.position p.position < 1 then
      some ((playerTakeDamage p b.damage).1 :: ps)
    else
      (bulletHitScan b ps).map (fun qs => p :: qs)

/-- The tail of ServerBullet.update after ground-collision resolution:
bounds check (y > WORLD_HEIGHT + 50), lifetime decrement, player collision.
Returns the final bullet, the player registry after the call, and the value
returned by update. -/
def bulletAfterGround (b : SBullet) (delta : ℚ) (players : List SPlayer) :
    SBullet × List SPlayer × Bool :=
  if b.position.y > (WORLD_HEIGHT : ℚ) + 50 then
    ({ b with isActive := false }, players, false)
  else
    let b2 : SBullet := { b with life := b.life - delta }
    if b2.life ≤ 0 then ({ b2 with isActive := false }, players, false)
    else
      match bulletHitScan b2 players with
      | some players2 => ({ b2 with isActive := false }, players2, false)
      | none => (b2, players, true)

/-- ServerBullet.update (server.js): no-op returning false when inactive;
otherwise gravity, integration, terrain bounce (while bounceCount <
BULLET_MAX_BOUNCES) or deactivation, then bounds, lifetime and player
collision checks. -/
def serverBulletUpdate (perm : List ℕ) (b : SBullet) (delta : ℚ)
    (players : List SPlayer) : SBullet × List SPlayer × Bool :=
  if b.isActive = false then (b, players, false)
  else
    let v1 : Vec3 := ⟨b.velocity.x, b.velocity.y + BULLET_GRAVITY * delta, b.velocity.z⟩
    let p1 : Vec3 := ⟨b.position.x + v1.x * delta, b.position.y + v1.y * delta,
                      b.position.z + v1.z * delta⟩
    if p1.y < (getTerrainHeight perm p1.x p1.z : ℚ) then
      if b.bounceCount < BULLET_MAX_BOUNCES then
        bulletAfterGround
          { b with position := ⟨p1.x, (getTerrainHeight perm p1.x p1.z : ℚ), p1.z⟩,
                   velocity := ⟨v1.x, -v1.y * BULLET_BOUNCE_DAMPENING, v1.z⟩,
                   bounceCount := b.bounceCount + 1 }
          delta players
      else ({ b with isActive := false }, players, false)
    else
      bulletAfterGround { b with position := p1, velocity := v1 } delta players

/-! ## Weapon system (weapon.js) and the server ammo handlers (server.js) -/

/-- A client weapon definition (weapon.js WeaponSystem constructor). -/
structure Weapon where
  damage : ℚ
  fireRate : ℤ
  accuracy : ℚ
  ammoCapacity : ℤ
  reloadTime : ℤ
  pellets : Option ℕ
  deriving DecidableEq

/-- The keys of this.weapons. -/
inductive WeaponKind where
  | pistol
  | rifle
  | shotgun
  deriving DecidableEq

/-- The weapon table of the WeaponSystem constructor. -/
def weapons : WeaponKind → Weapon
  | WeaponKind.pistol => ⟨25, 300, 95/100, 12, 1500, none⟩
  | WeaponKind.rifle => ⟨40, 150, 85/100, 30, 2000, none⟩
  | WeaponKind.shotgun => ⟨80, 800, 3/5, 6, 2500, some 5⟩

/-- Client weapon and ammunition state: the WeaponSystem fields together
with the ammo fields of gameState (main.js). -/
structure WState where
  currentWeapon : WeaponKind
  lastShot : ℤ
  isReloading : Bool
  ammo : ℤ
  totalAmmo : ℤ
  deriving DecidableEq

/-- WeaponSystem.canShoot at clock time now (Date.now()): not reloading,
ammo in the clip, and now - lastShot strictly greater than the fire rate. -/
def canShoot (s : WState) (now : ℤ) : Bool :=
  !s.isReloading && decide (0 < s.ammo) &&
    decide ((weapons s.currentWeapon).fireRate < now - s.lastShot)

/-- WeaponSystem.fireWeapon: when canShoot fails, return false with no state
change; otherwise record lastShot, spawn pellets (default 1) bullets each
carrying damage / pellets, and consume one round.  Spawned bullets are
represented by their damage values; spread directions, recoil and muzzle
flash are rendering concerns outside this model. -/
def fireWeapon (s : WState) (now : ℤ) : WState × List ℚ × Bool :=
  if canShoot s now = false then (s, [], false)
  else
    let weaponData := weapons s.currentWeapon
    let pelletCount := weaponData.pellets.getD 1
    let damagePerPellet := weaponData.damage / (pelletCount : ℚ)
    ({ s with lastShot := now, ammo := s.ammo - 1 },
     List.replicate pelletCount damagePerPellet, true)

/-- The server-side ammo state of a player. -/
structure AmmoState where
  ammo : ℤ
  totalAmmo : ℤ
  deriving DecidableEq

/-- The player-reload socket handler (server.js): reject when the clip is
full or the reserve is empty; otherwise transfer min(needed, reserve) from
the reserve into the clip. -/
def playerReload (s : AmmoState) : AmmoState :=
  if s.ammo ≥ AMMO_CAPACITY ∨ s.totalAmmo ≤ 0 then s
  else
    let needed := AMMO_CAPACITY - s.ammo
    let available := min needed s.totalAmmo
    ⟨s.ammo + available, s.totalAmmo - available⟩


/-! ## Helper theorems -/

set_option maxRecDepth 10000 in
/-- The permutation table of seed 42, computed once by the kernel. -/
theorem worldPerm_eq : worldPerm = worldPermTable := by decide

/-- Unfolding of getBlockType into its branch structure. -/
theorem getBlockType_def (perm : List ℕ) (r : TreeOracle) (x y z : ℤ) :
    getBlockType perm r x y z =
      if y > baseHeight perm (x : ℚ) (z : ℚ) + 10 then BlockType.AIR
      else if y ≤ 15 ∧ y > baseHeight perm (x : ℚ) (z : ℚ) then BlockType.WATER
      else if y ≤ 5 then BlockType.STONE
      else if y ≤ baseHeight perm (x : ℚ) (z : ℚ) then
        if octaveNoise perm (x : ℚ) (z : ℚ) 2 (2/5) (3/200) > 3/10 ∧
           octaveNoise perm (x : ℚ) (z : ℚ) 3 (3/5) (1/50) < -(1/5) ∧
           y = baseHeight perm (x : ℚ) (z : ℚ) then BlockType.SAND
        else if octaveNoise perm (x : ℚ) (z : ℚ) 2 (2/5) (3/200) < -(3/10) ∧
           y = baseHeight perm (x : ℚ) (z : ℚ) then BlockType.SNOW
        else if y = baseHeight perm (x : ℚ) (z : ℚ) then BlockType.GRASS
        else if y > baseHeight perm (x : ℚ) (z : ℚ) - 3 then BlockType.DIRT
        else BlockType.STONE
      else if y = baseHeight perm (x : ℚ) (z : ℚ) + 1 ∧
              getBlockTypeGo perm r 1 x (y - 1) z = BlockType.GRASS ∧
              r x y z = true ∧
              octaveNoise perm (x : ℚ) (z : ℚ) 2 (2/5) (3/200) > -(1/5) then BlockType.TREE
      else BlockType.AIR := rfl

/-- Above the surface column and with no tree placed, every block up from
baseHeight + 1 is AIR, provided the surface is at or above water level. -/
theorem getBlockType_air_of_above (perm : List ℕ) (x z y : ℤ)
    (hb : 15 ≤ baseHeight perm (x : ℚ) (z : ℚ))
    (hy : baseHeight perm (x : ℚ) (z : ℚ) < y) :
    getBlockType perm noTree x y z = BlockType.AIR := by
  rw [getBlockType_def]
  by_cases h1 : y > baseHeight perm (x : ℚ) (z : ℚ) + 10
  · rw [if_pos h1]
  · rw [if_neg h1, if_neg (by omega), if_neg (by omega : ¬(y ≤ 5)),
        if_neg (by omega : ¬(y ≤ baseHeight perm (x : ℚ) (z : ℚ))), if_neg]
    intro hc
    exact Bool.false_ne_true hc.2.2.1

/-- At y = baseHeight the classifier returns a surface block, never AIR,
provided the surface is at or above water level. -/
theorem getBlockType_surface_ne_air (perm : List ℕ) (x z : ℤ)
    (hb : 15 ≤ baseHeight perm (x : ℚ) (z : ℚ)) :
    getBlockType perm noTree x (baseHeight perm (x : ℚ) (z : ℚ)) z ≠ BlockType.AIR := by
  rw [getBlockType_def]
  rw [if_neg (by omega), if_neg (by omega), if_neg (by omega : ¬(baseHeight perm (x : ℚ) (z : ℚ) ≤ 5)),
      if_pos (le_refl _)]
  split_ifs <;> simp

/-- The downward scan returns b + 1 when every block above b is AIR and the
block at b is not. -/
theorem scanHeight_eq (perm : List ℕ) (r : TreeOracle) (x z : ℤ) (b : ℤ)
    (hb0 : 0 ≤ b)
    (hsurf : getBlockType perm r x b z ≠ BlockType.AIR)
    (hair : ∀ y : ℤ, b < y → getBlockType perm r x y z = BlockType.AIR) :
    ∀ n : ℕ, b ≤ (n : ℤ) → scanHeight perm r x z n = b + 1 := by
  intro n
  induction n with
  | zero =>
    intro hn
    have hb : b = 0 := by omega
    subst hb
    simp only [scanHeight]
    rw [if_pos hsurf]
    omega
  | succ m ih =>
    intro hn
    by_cases he : b = ((m + 1 : ℕ) : ℤ)
    · simp only [scanHeight]
      rw [if_pos]
      · omega
      · rw [← he]; exact hsurf
    · simp only [scanHeight]
      rw [if_neg]
      · exact ih (by push_cast at hn he ⊢; omega)
      · intro hne
        exact hne (hair _ (by push_cast at hn he ⊢; omega))

set_option maxRecDepth 100000 in
/-- C1 (claim as stated fails): at the integer pair (4, 14) the two
getTerrainHeight variants disagree: the closed form gives 14 while the
downward scan meets the WATER block at y = 15 and returns 16. -/
theorem terrainHeight_mismatch :
    getTerrainHeight worldPerm ((4 : ℤ) : ℚ) ((14 : ℤ) : ℚ) ≠
      clientGetTerrainHeight worldPerm noTree 4 14 := by
  rw [worldPerm_eq]
  with_unfolding_all decide

/-- C1 (amended): for every integer pair (x, z) whose surface height
baseHeight lies between the water level 15 and the scan top 63, and with the
random tree layer placing no tree, the closed-form server getTerrainHeight
equals the client scan getTerrainHeight. -/
theorem clientHeight_eq_serverHeight (x z : ℤ)
    (h15 : 15 ≤ baseHeight worldPerm (x : ℚ) (z : ℚ))
    (h63 : baseHeight worldPerm (x : ℚ) (z : ℚ) ≤ 63) :
    clientGetTerrainHeight worldPerm noTree x z =
      getTerrainHeight worldPerm (x : ℚ) (z : ℚ) := by
  unfold clientGetTerrainHeight getTerrainHeight
  exact scanHeight_eq worldPerm noTree x z _ (by omega)
    (getBlockType_surface_ne_air worldPerm x z h15)
    (fun y hy => getBlockType_air_of_above worldPerm x z y h15 hy)
    63 (by exact_mod_cast h63)

set_option maxRecDepth 100000 in
/-- C1 witness: at the origin both height functions give 21. -/
theorem clientHeight_eq_serverHeight_witness :
    clientGetTerrainHeight worldPerm noTree 0 0 =
      getTerrainHeight worldPerm ((0 : ℤ) : ℚ) ((0 : ℤ) : ℚ) :=
  clientHeight_eq_serverHeight 0 0
    (by rw [worldPerm_eq]; with_unfolding_all decide)
    (by rw [worldPerm_eq]; with_unfolding_all decide)

set_option maxRecDepth 100000 in
/-- C2 (code bug): VoxelWorld.getBlockType is not a pure function of the
coordinates and seed: at (0, 21, 0) the surface below is GRASS and the
temperature noise is 0, so the result is TREE when the Math.random() draw is
below 0.01 and AIR otherwise. -/
theorem getBlockType_not_deterministic :
    getBlockType worldPerm (fun _ _ _ => true) 0 21 0 = BlockType.TREE ∧
    getBlockType worldPerm (fun _ _ _ => false) 0 21 0 = BlockType.AIR := by
  rw [worldPerm_eq]
  constructor <;> with_unfolding_all decide

/-- Each shuffle step is composition with a transposition of indices. -/
theorem swapFun_eq_comp (p : ℕ → ℕ) (i j : ℕ) :
    swapFun p i j = p ∘ (Equiv.swap i j) := by
  funext k
  simp only [swapFun, Function.comp_apply, Equiv.swap_apply_def]
  by_cases h1 : k = i
  · simp [h1]
  · by_cases h2 : k = j
    · by_cases h3 : j = i <;> simp [h1, h2, h3]
    · simp [h1, h2]

/-- Through the shuffle loop the array stays a permutation of ℕ that fixes
every index at or above 256. -/
theorem shuffleFrom_equiv (n : ℕ) :
    ∀ (hn : n ≤ 255) (rng : ℕ) (e : Equiv.Perm ℕ),
      (∀ k, 256 ≤ k → e k = k) →
      ∃ f : Equiv.Perm ℕ, shuffleFrom (⇑e) rng n = ⇑f ∧ ∀ k, 256 ≤ k → f k = k := by
  induction n with
  | zero => exact fun _ rng e he => ⟨e, rfl, he⟩
  | succ m ih =>
    intro hn rng e he
    have hrng2 : lcgNext rng < 233280 := Nat.mod_lt _ (by norm_num)
    have hj : lcgNext rng * (m + 2) / 233280 < 256 := by
      have hmul : lcgNext rng * (m + 2) < 233280 * (m + 2) :=
        mul_lt_mul_of_pos_right hrng2 (by omega)
      have : lcgNext rng * (m + 2) / 233280 < m + 2 :=
        (Nat.div_lt_iff_lt_mul (by norm_num)).mpr (by omega)
      omega
    have hswap : swapFun (⇑e) (m + 1) (lcgNext rng * (m + 2) / 233280) =
        ⇑((Equiv.swap (m + 1) (lcgNext rng * (m + 2) / 233280)).trans e) := by
      rw [swapFun_eq_comp]
      rfl
    simp only [shuffleFrom]
    rw [hswap]
    refine ih (by omega) (lcgNext rng)
      ((Equiv.swap (m + 1) (lcgNext rng * (m + 2) / 233280)).trans e) ?_
    intro k hk
    rw [Equiv.trans_apply,
        Equiv.swap_apply_of_ne_of_ne (by omega) (by omega)]
    exact he k hk

/-- A permutation of ℕ fixing indices at or above 256 maps indices below 256
below 256. -/
theorem equiv_image_lt (f : Equiv.Perm ℕ) (hfix : ∀ k, 256 ≤ k → f k = k)
    (k : ℕ) (hk : k < 256) : f k < 256 := by
  by_contra hge
  push_neg at hge
  have h2 : f (f k) = f k := hfix (f k) hge
  have h3 : f k = k := f.injective h2
  omega

/-- The inverse of such a permutation also fixes indices at or above 256. -/
theorem equiv_symm_fix (f : Equiv.Perm ℕ) (hfix : ∀ k, 256 ≤ k → f k = k)
    (k : ℕ) (hk : 256 ≤ k) : f.symm k = k := by
  conv_lhs => rw [← hfix k hk]
  exact f.symm_apply_apply k

/-- Mapping range 256 through such a permutation is a permutation of
range 256. -/
theorem map_range_perm (f : Equiv.Perm ℕ) (hfix : ∀ k, 256 ≤ k → f k = k) :
    ((List.range 256).map ⇑f).Perm (List.range 256) := by
  apply List.perm_of_nodup_nodup_toFinset_eq
  · exact List.Nodup.map f.injective (List.nodup_range 256)
  · exact List.nodup_range 256
  · apply List.toFinset.ext
    intro m
    simp only [List.mem_map, List.mem_range]
    constructor
    · rintro ⟨k, hk, rfl⟩
      exact equiv_image_lt f hfix k hk
    · intro hm
      exact ⟨f.symm m, equiv_image_lt f.symm (equiv_symm_fix f hfix) m hm,
        f.apply_symm_apply m⟩

/-- C3 (amended): for every nonnegative integer seed, generatePermutation
produces the concatenation of two identical copies of a permutation of
0..255 built by the specified linear congruential shuffle. -/
theorem generatePermutation_double_perm (seed : ℕ) :
    ∃ l : List ℕ, l.Perm (List.range 256) ∧ generatePermutation seed = l ++ l := by
  have h0 : ∃ f : Equiv.Perm ℕ, shuffleFrom id seed 255 = ⇑f ∧ ∀ k, 256 ≤ k → f k = k := by
    have h := shuffleFrom_equiv 255 (le_refl 255) seed (Equiv.refl ℕ) (fun k _ => rfl)
    simpa using h
  obtain ⟨f, hf, hfix⟩ := h0
  refine ⟨(List.range 256).map (shuffleFrom id seed 255), ?_, rfl⟩
  rw [hf]
  exact map_range_perm f hfix

set_option maxRecDepth 10000 in
/-- C3 (claim as stated fails): at seed -6 the first shuffle step computes
rng = -6509 and j = -8, swapping p[255] with the undefined p[-8]; entry 255
of the final table is undefined, so the table is not two copies of a
permutation of 0..255. -/
theorem permTableClaim_fails : ¬ permTableClaim (-6) := by
  rintro ⟨l, hperm, heq⟩
  have hlen : l.length = 256 := by simpa using hperm.length_eq
  have h255 : (generatePermutationJS (-6))[255]? = some none := by decide
  rw [heq] at h255
  have hlt : (255 : ℕ) < (l.map some).length := by simp [hlen]
  rw [List.getElem?_append, if_pos hlt, List.getElem?_eq_getElem hlt] at h255
  simp at h255

/-- C4 (claim as stated fails): a further takeDamage on an already dead
player (health 0, isAlive false) returns killed = true, because the source
returns !this.isAlive, not whether this call caused the death. -/
theorem takeDamage_dead_returns_true :
    (playerTakeDamage ⟨1, ⟨0, 0, 0⟩, 0, false⟩ 5).2 = true := by
  with_unfolding_all decide

/-- C4 (amended): ServerPlayer.takeDamage subtracts and clamps health at 0,
clears isAlive exactly when the subtracted health is not positive, and
returns killed = true iff the player is dead after the call; on a dead
player a positive damage amount keeps health at 0 and returns true.
Enemy.takeDamage subtracts without clamping and reports death exactly when
the resulting health is ≤ 0. -/
theorem takeDamage_spec (p : SPlayer) (d eh ed : ℚ) :
    ((playerTakeDamage p d).1.health = max (p.health - d) 0) ∧
    ((playerTakeDamage p d).1.isAlive = true ↔ (p.isAlive = true ∧ 0 < p.health - d)) ∧
    ((playerTakeDamage p d).2 = true ↔ (p.health - d ≤ 0 ∨ p.isAlive = false)) ∧
    (p.health = 0 → 0 < d →
      playerTakeDamage p d = ({ p with health := 0, isAlive := false }, true)) ∧
    ((enemyTakeDamage eh ed).1 = eh - ed ∧
      ((enemyTakeDamage eh ed).2 = true ↔ eh - ed ≤ 0)) := by
  unfold playerTakeDamage enemyTakeDamage
  by_cases h : p.health - d ≤ 0
  · rw [if_pos h]
    refine ⟨by simp [max_eq_right h], by simp [h, not_lt.mpr h], by simp [h], ?_, by simp⟩
    intro h0 hd
    rfl
  · rw [if_neg h]
    push_neg at h
    refine ⟨by simp [max_eq_left (le_of_lt h)], by simp [h], ?_, ?_, by simp⟩
    · constructor
      · intro hb
        right
        cases hp : p.isAlive
        · rfl
        · rw [hp] at hb; simp at hb
      · intro hb
        rcases hb with hb | hb
        · exact absurd hb (not_le.mpr h)
        · simp [hb]
    · intro h0 hd
      exfalso
      rw [h0] at h
      linarith

/-- C4 witness: the amended theorem applied to a dead player. -/
theorem takeDamage_spec_witness :
    playerTakeDamage ⟨2, ⟨0, 0, 0⟩, 0, false⟩ 7 = (⟨2, ⟨0, 0, 0⟩, 0, false⟩, true) :=
  (takeDamage_spec ⟨2, ⟨0, 0, 0⟩, 0, false⟩ 7 0 0).2.2.2.1 rfl (by norm_num)

/-- Every branch of the post-collision tail keeps position, velocity and
bounce count. -/
theorem bulletAfterGround_fields (b : SBullet) (delta : ℚ) (players : List SPlayer) :
    (bulletAfterGround b delta players).1.position = b.position ∧
    (bulletAfterGround b delta players).1.velocity = b.velocity ∧
    (bulletAfterGround b delta players).1.bounceCount = b.bounceCount := by
  unfold bulletAfterGround
  dsimp only
  split_ifs <;> first
    | exact ⟨rfl, rfl, rfl⟩
    | (split <;> exact ⟨rfl, rfl, rfl⟩)

/-- The post-collision tail returns exactly the activity flag of the final
bullet when the incoming bullet is active. -/
theorem bulletAfterGround_ret (b : SBullet) (delta : ℚ) (players : List SPlayer)
    (h : b.isActive = true) :
    (bulletAfterGround b delta players).2.2 = (bulletAfterGround b delta players).1.isActive := by
  unfold bulletAfterGround
  dsimp only
  split_ifs <;> first
    | simp
    | (split <;> simp [h])

/-- C8: ServerBullet.update returns false exactly when the projectile is
inactive after the call (already inactive on entry, in which case the call
is a no-op, or deactivated during this call by terrain impact beyond the
bounce limit, leaving world bounds, lifetime expiry, or an entity hit), and
true otherwise. -/
theorem serverBulletUpdate_ret (perm : List ℕ) (b : SBullet) (delta : ℚ)
    (players : List SPlayer) :
    ((serverBulletUpdate perm b delta players).2.2 =
      (serverBulletUpdate perm b delta players).1.isActive) ∧
    (b.isActive = false → serverBulletUpdate perm b delta players = (b, players, false)) := by
  by_cases hact : b.isActive = false
  · unfold serverBulletUpdate
    rw [if_pos hact]
    exact ⟨hact.symm, fun _ => rfl⟩
  · have hact2 : b.isActive = true := by revert hact; cases b.isActive <;> simp
    unfold serverBulletUpdate
    rw [if_neg hact]
    refine ⟨?_, fun hf => absurd hf hact⟩
    dsimp only
    split_ifs with h1 h2
    · exact bulletAfterGround_ret _ delta players hact2
    · simp
    · exact bulletAfterGround_ret _ delta players hact2

/-- C8 witness: on an inactive bullet the call is a no-op returning false. -/
theorem serverBulletUpdate_ret_witness :
    serverBulletUpdate worldPerm ⟨⟨0, 10, 0⟩, ⟨0, 0, 0⟩, 25, 1, 5, 0, false⟩ 1 [] =
      (⟨⟨0, 10, 0⟩, ⟨0, 0, 0⟩, 25, 1, 5, 0, false⟩, [], false) :=
  (serverBulletUpdate_ret worldPerm ⟨⟨0, 10, 0⟩, ⟨0, 0, 0⟩, 25, 1, 5, 0, false⟩ 1 []).2 rfl

/-- C5: the bounce count of a ServerBullet never exceeds BULLET_MAX_BOUNCES;
a terrain collision (integrated height below the terrain height at the
integrated position) while bounceCount < 3 clamps the position to the
surface, reflects the integrated vertical velocity scaled by
BULLET_BOUNCE_DAMPENING and increments bounceCount; a terrain collision
once bounceCount has reached 3 deactivates the projectile and returns
false. -/
theorem bullet_bounce_bound (perm : List ℕ) (b : SBullet) (delta : ℚ)
    (players : List SPlayer) :
    (b.bounceCount ≤ BULLET_MAX_BOUNCES →
      (serverBulletUpdate perm b delta players).1.bounceCount ≤ BULLET_MAX_BOUNCES) ∧
    (b.isActive = true →
      b.position.y + (b.velocity.y + BULLET_GRAVITY * delta) * delta <
        ((getTerrainHeight perm (b.position.x + b.velocity.x * delta)
           (b.position.z + b.velocity.z * delta) : ℤ) : ℚ) →
      ((b.bounceCount < BULLET_MAX_BOUNCES →
          ((serverBulletUpdate perm b delta players).1.bounceCount = b.bounceCount + 1 ∧
           (serverBulletUpdate perm b delta players).1.velocity =
             ⟨b.velocity.x, -(b.velocity.y + BULLET_GRAVITY * delta) * BULLET_BOUNCE_DAMPENING,
              b.velocity.z⟩ ∧
           (serverBulletUpdate perm b delta players).1.position =
             ⟨b.position.x + b.velocity.x * delta,
              ((getTerrainHeight perm (b.position.x + b.velocity.x * delta)
                 (b.position.z + b.velocity.z * delta) : ℤ) : ℚ),
              b.position.z + b.velocity.z * delta⟩)) ∧
       (b.bounceCount = BULLET_MAX_BOUNCES →
          serverBulletUpdate perm b delta players =
            ({ b with isActive := false }, players, false)))) := by
  constructor
  · intro hle
    unfold serverBulletUpdate
    dsimp only
    split_ifs with h1 h2 h3
    · exact hle
    · have hf := bulletAfterGround_fields
        { b with position := ⟨b.position.x + b.velocity.x * delta,
                   ((getTerrainHeight perm (b.position.x + b.velocity.x * delta)
                      (b.position.z + b.velocity.z * delta) : ℤ) : ℚ),
                   b.position.z + b.velocity.z * delta⟩,
                 velocity := ⟨b.velocity.x,
                   -(b.velocity.y + BULLET_GRAVITY * delta) * BULLET_BOUNCE_DAMPENING,
                   b.velocity.z⟩,
                 bounceCount := b.bounceCount + 1 } delta players
      rw [hf.2.2]
      dsimp only
      unfold BULLET_MAX_BOUNCES at h3 ⊢
      omega
    · exact hle
    · have hf := bulletAfterGround_fields
        { b with position := ⟨b.position.x + b.velocity.x * delta,
                   b.position.y + (b.velocity.y + BULLET_GRAVITY * delta) * delta,
                   b.position.z + b.velocity.z * delta⟩,
                 velocity := ⟨b.velocity.x, b.velocity.y + BULLET_GRAVITY * delta,
                   b.velocity.z⟩ } delta players
      rw [hf.2.2]
      exact hle
  · intro hact hcol
    unfold serverBulletUpdate
    rw [if_neg (by simp [hact])]
    dsimp only
    rw [if_pos hcol]
    constructor
    · intro hbc
      rw [if_pos hbc]
      have hf := bulletAfterGround_fields
        { b with position := ⟨b.position.x + b.velocity.x * delta,
                   ((getTerrainHeight perm (b.position.x + b.velocity.x * delta)
                      (b.position.z + b.velocity.z * delta) : ℤ) : ℚ),
                   b.position.z + b.velocity.z * delta⟩,
                 velocity := ⟨b.velocity.x,
                   -(b.velocity.y + BULLET_GRAVITY * delta) * BULLET_BOUNCE_DAMPENING,
                   b.velocity.z⟩,
                 bounceCount := b.bounceCount + 1 } delta players
      exact ⟨hf.2.2, hf.2.1, hf.1⟩
    · intro hbc
      rw [if_neg (by omega)]

set_option maxRecDepth 100000 in
/-- C5 witness: a concrete falling bullet over the origin bounces: its
bounce count goes from 0 to 1. -/
theorem bullet_bounce_bound_witness :
    (serverBulletUpdate worldPerm ⟨⟨0, 10, 0⟩, ⟨0, 0, 0⟩, 25, 1, 5, 0, true⟩ 1 []).1.bounceCount
      = 0 + 1 :=
  (((bullet_bounce_bound worldPerm ⟨⟨0, 10, 0⟩, ⟨0, 0, 0⟩, 25, 1, 5, 0, true⟩ 1 []).2 rfl
      (by rw [worldPerm_eq]; with_unfolding_all decide)).1 (by decide)).1

/-- C6: the server reload handler transfers exactly
min(AMMO_CAPACITY - ammo, totalAmmo) rounds from the reserve into the clip
when the clip is not full and the reserve is nonempty, is rejected with no
state change when the clip is full or the reserve is empty, and takes
ammo = 0, totalAmmo = 90 to ammo = 30, totalAmmo = 60. -/
theorem reload_spec (a t : ℤ) :
    (a < AMMO_CAPACITY → 0 < t →
      playerReload ⟨a, t⟩ =
        ⟨a + min (AMMO_CAPACITY - a) t, t - min (AMMO_CAPACITY - a) t⟩) ∧
    (a = AMMO_CAPACITY → playerReload ⟨a, t⟩ = ⟨a, t⟩) ∧
    (t ≤ 0 → playerReload ⟨a, t⟩ = ⟨a, t⟩) ∧
    playerReload ⟨0, 90⟩ = ⟨30, 60⟩ := by
  refine ⟨?_, ?_, ?_, by with_unfolding_all decide⟩
  · intro h1 h2
    unfold playerReload
    rw [if_neg]
    simp only [AMMO_CAPACITY] at h1 ⊢
    omega
  · intro h
    unfold playerReload
    rw [if_pos (Or.inl (le_of_eq h.symm))]
  · intro h
    unfold playerReload
    rw [if_pos (Or.inr h)]

/-- C6 witness: a partially empty clip with a small reserve. -/
theorem reload_spec_witness :
    playerReload ⟨12, 5⟩ =
      ⟨12 + min (AMMO_CAPACITY - 12) 5, 5 - min (AMMO_CAPACITY - 12) 5⟩ :=
  (reload_spec 12 5).1 (by norm_num [AMMO_CAPACITY]) (by norm_num)

/-- C9: reload conserves total ammunition and keeps the clip within
capacity and the reserve nonnegative. -/
theorem reload_conserves (a t : ℤ) (h0 : 0 ≤ a) (hcap : a ≤ AMMO_CAPACITY)
    (ht : 0 ≤ t) (heff1 : a < AMMO_CAPACITY) (heff2 : 0 < t) :
    (playerReload ⟨a, t⟩).ammo + (playerReload ⟨a, t⟩).totalAmmo = a + t ∧
    (playerReload ⟨a, t⟩).ammo ≤ AMMO_CAPACITY ∧
    0 ≤ (playerReload ⟨a, t⟩).totalAmmo := by
  unfold playerReload
  simp only [AMMO_CAPACITY] at hcap heff1 ⊢
  rw [if_neg (by omega)]
  dsimp only
  refine ⟨by omega, by omega, by omega⟩

/-- C9 witness: the scenario of the spec example. -/
theorem reload_conserves_witness :
    (playerReload ⟨0, 90⟩).ammo + (playerReload ⟨0, 90⟩).totalAmmo = 0 + 90 :=
  (reload_conserves 0 90 (by norm_num) (by norm_num [AMMO_CAPACITY]) (by norm_num)
    (by norm_num [AMMO_CAPACITY]) (by norm_num)).1

/-- C7 (claim as stated fails): with the rifle (fireRate 150), ammo 30 and
lastShot 0, at now = 150 the elapsed time equals the fire rate, so the
claimed acceptance condition holds, but canShoot compares strictly and
rejects the shot. -/
theorem fireGate_claim_fails :
    ¬ (canShoot ⟨WeaponKind.rifle, 0, false, 30, 90⟩ 150 = true ↔
        ((weapons WeaponKind.rifle).fireRate ≤ 150 - (0 : ℤ) ∧ (0 : ℤ) < 30)) := by
  with_unfolding_all decide

/-- C7 (amended): a fire action is accepted iff the system is not reloading,
the clip holds at least one round, and now - lastShot is strictly greater
than the fire rate of the current weapon; a rejected fire action changes no
state and spawns no bullet. -/
theorem canShoot_iff (s : WState) (now : ℤ) :
    (canShoot s now = true ↔
      (s.isReloading = false ∧ 0 < s.ammo ∧
        (weapons s.currentWeapon).fireRate < now - s.lastShot)) ∧
    (canShoot s now = false → fireWeapon s now = (s, [], false)) := by
  constructor
  · unfold canShoot
    simp [Bool.and_eq_true, Bool.not_eq_true', and_assoc]
  · intro h
    unfold fireWeapon
    rw [if_pos h]

/-- C7 witness: a reloading system rejects the shot with no state change. -/
theorem canShoot_iff_witness :
    fireWeapon ⟨WeaponKind.rifle, 0, true, 30, 90⟩ 1000 =
      (⟨WeaponKind.rifle, 0, true, 30, 90⟩, [], false) :=
  (canShoot_iff ⟨WeaponKind.rifle, 0, true, 30, 90⟩ 1000).2 (by with_unfolding_all decide)

/-- C10: an accepted fire action consumes exactly one round regardless of
the pellet count, spawns pellets bullets (1 when the weapon defines no
pellet count), each carrying damage / pellets, and the summed damage of the
spawned bullets equals the weapon damage. -/
theorem fireWeapon_spec (s : WState) (now : ℤ) (h : canShoot s now = true) :
    (fireWeapon s now).1.ammo = s.ammo - 1 ∧
    (fireWeapon s now).2.1.length = (weapons s.currentWeapon).pellets.getD 1 ∧
    (∀ d ∈ (fireWeapon s now).2.1,
      d = (weapons s.currentWeapon).damage /
        (((weapons s.currentWeapon).pellets.getD 1 : ℕ) : ℚ)) ∧
    (fireWeapon s now).2.1.sum = (weapons s.currentWeapon).damage := by
  unfold fireWeapon
  rw [if_neg (by simp [h])]
  dsimp only
  refine ⟨rfl, by simp, ?_, ?_⟩
  · intro d hd
    exact List.eq_of_mem_replicate hd
  · rw [List.sum_replicate]
    have hne : (((weapons s.currentWeapon).pellets.getD 1 : ℕ) : ℚ) ≠ 0 := by
      cases s.currentWeapon <;> norm_num [weapons]
    rw [nsmul_eq_mul, mul_comm, div_mul_cancel₀ _ hne]

/-- C10 witness: the shotgun blast consumes one round and delivers its
listed 80 damage in total. -/
theorem fireWeapon_spec_witness :
    (fireWeapon ⟨WeaponKind.shotgun, 0, false, 6, 30⟩ 1000).1.ammo = 6 - 1 ∧
    (fireWeapon ⟨WeaponKind.shotgun, 0, false, 6, 30⟩ 1000).2.1.sum =
      (weapons WeaponKind.shotgun).damage :=
  ⟨(fireWeapon_spec ⟨WeaponKind.shotgun, 0, false, 6, 30⟩ 1000
      (by with_unfolding_all decide)).1,
   (fireWeapon_spec ⟨WeaponKind.shotgun, 0, false, 6, 30⟩ 1000
      (by with_unfolding_all decide)).2.2.2⟩

end VoxelFPS
